import Mathlib

/-!
Verification of the ortotool-gdal frontend job-tracking code.

The definitions below are a shallow embedding of the TypeScript sources:
- `ProcessingJob` and its status union, from `src/types` (unnamed part_000,
  lines 33-44);
- `ProcessingPanel.handleExecute`, `canExecuteOperation` and the
  `operations` table, from the ProcessingPanel component (unnamed
  part_003, lines 198-273);
- `JobTracker.handleDelete` and the rendering guard on the delete button,
  from `FileManager.tsx` (JobTracker component, lines 178-180 and 317-326);
- `HomePage.handleJobCreate`, from `app/page.tsx` (lines 42-44);
- `MapViewer.toggleLayerVisibility`, from the MapViewer component
  (unnamed part_002, lines 117-123);
- `FileManager.formatFileSize`, from `FileManager.tsx` (lines 15-21).

Time is modelled as a natural number of milliseconds.  `Date.now()` at the
moment of submission becomes the parameter `now`; `created_at` (an ISO-8601
string in the code, whose lexicographic order coincides with chronological
order) is modelled as that same millisecond count.
-/

namespace Ortotool

/-- The status union of `ProcessingJob` in src/types:
`'pending' | 'processing' | 'completed' | 'failed'`.
The source type has exactly these four alternatives. -/
inductive JobStatus where
  | pending
  | processing
  | completed
  | failed
deriving DecidableEq, Repr, Fintype

/-- The string literal each `JobStatus` alternative stands for in the
TypeScript union (the value stored in the `status` field and rendered by
`JobTracker`). -/
def JobStatus.literal : JobStatus → String
  | .pending => "pending"
  | .processing => "processing"
  | .completed => "completed"
  | .failed => "failed"

/-- The operation union of `ProcessingJob.type` in src/types:
`'clip' | 'reproject' | 'resample' | 'mosaic'`. -/
inductive JobType where
  | clip
  | reproject
  | resample
  | mosaic
deriving DecidableEq, Repr, Fintype

/-- The `ProcessingJob` interface from src/types (part_000, lines 33-44).
`parameters : Record<string, any>` is modelled as an association list
(the code only ever stores the empty record `{}`); `created_at` is the
creation timestamp in milliseconds (see the header comment). -/
structure ProcessingJob where
  id : String
  type : JobType
  status : JobStatus
  progress : Nat
  input_files : List String
  output_file : Option String
  parameters : List (String × String)
  created_at : Nat
  updated_at : Option Nat
  error : Option String
deriving DecidableEq, Repr

/-- The job object built by `ProcessingPanel.handleExecute` (part_003,
lines 250-258): `id = Date.now().toString()`, `status = 'pending'`,
`progress = 0`, `input_files = selectedFiles`, `parameters = {}`,
`created_at = new Date().toISOString()`; `output_file`, `updated_at` and
`error` are absent. -/
def mkJob (now : Nat) (op : JobType) (selectedFiles : List String) :
    ProcessingJob :=
  { id := toString now
    type := op
    status := .pending
    progress := 0
    input_files := selectedFiles
    output_file := none
    parameters := []
    created_at := now
    updated_at := none
    error := none }

/-- The first `setTimeout` callback in `handleExecute` (part_003, lines
263-266), scheduled 1000 ms after submission:
`job.status = 'processing'; job.progress = 50`. -/
def tickProcessing (j : ProcessingJob) : ProcessingJob :=
  { j with status := .processing, progress := 50 }

/-- The second `setTimeout` callback in `handleExecute` (part_003, lines
268-272), scheduled 5000 ms after submission: `job.status = 'completed';
job.progress = 100; job.output_file = 'result_' + job.id + '.tif'`. -/
def tickCompleted (j : ProcessingJob) : ProcessingJob :=
  { j with
    status := .completed
    progress := 100
    output_file := some ("result_" ++ j.id ++ ".tif") }

/-- The state of a job submitted at millisecond `now`, observed `t`
milliseconds after submission.  `handleExecute` creates the job in state
`mkJob`, then the two timeout callbacks fire at 1000 ms and 5000 ms, in
that order, and nothing else ever mutates the job object. -/
def jobAt (now : Nat) (op : JobType) (files : List String) (t : Nat) :
    ProcessingJob :=
  if t < 1000 then mkJob now op files
  else if t < 5000 then tickProcessing (mkJob now op files)
  else tickCompleted (tickProcessing (mkJob now op files))

/-- Rank of a status along the code's lifecycle, used to state that the
status only moves forward.  The two terminal statuses share the top rank. -/
def statusRank : JobStatus → Nat
  | .pending => 0
  | .processing => 1
  | .completed => 2
  | .failed => 2

/-- A terminal status: one from which the spec's state machine permits no
further transition.  In the source's four-valued union these are
`completed` and `failed`. -/
def isTerminal : JobStatus → Bool
  | .completed => true
  | .failed => true
  | _ => false

/-- `HomePage.handleJobCreate` (page.tsx, lines 42-44):
`setActiveJobs(prev => [...prev, job])` — the new job is appended at the
end of the job list.  `JobTracker` then renders `jobs.map(...)` in this
exact order (FileManager.tsx, JobTracker, lines 264-270). -/
def handleJobCreate (jobs : List ProcessingJob) (job : ProcessingJob) :
    List ProcessingJob :=
  jobs ++ [job]

/-- The per-operation requirements from the `operations` table in
ProcessingPanel (part_003, lines 198-231): number of raster and vector
files required.  A requirement that is absent in the table (`vector` for
all but clip) is 0, matching the JavaScript falsiness check. -/
def requirements : JobType → Nat × Nat
  | .clip => (1, 1)
  | .reproject => (1, 0)
  | .resample => (1, 0)
  | .mosaic => (2, 0)

/-- `canExecuteOperation` (part_003, lines 240-245): an operation is
offered when the counts of UPLOADED raster and vector files meet its
requirements.  Note it inspects the uploaded files, not the selected
ones. -/
def canExecuteOperation (rasterCount vectorCount : Nat) (op : JobType) :
    Bool :=
  decide ((requirements op).1 ≤ rasterCount) &&
    decide ((requirements op).2 ≤ vectorCount)

/-- The ProcessingPanel state that `handleExecute` reads: the selected
operation (or none) and the ids of the files the user ticked. -/
structure PanelState where
  selectedOperation : Option JobType
  selectedFiles : List String
deriving DecidableEq, Repr

/-- `ProcessingPanel.handleExecute` (part_003, lines 247-260) as it acts
on the job list: bail out when no operation is selected, otherwise build
the job and hand it to `onJobCreate`, which is `handleJobCreate`.  No
check of `selectedFiles` is performed here (the Execute button is merely
disabled when the selection is empty). -/
def handleExecute (now : Nat) (s : PanelState)
    (jobs : List ProcessingJob) : List ProcessingJob :=
  match s.selectedOperation with
  | none => jobs
  | some op => handleJobCreate jobs (mkJob now op s.selectedFiles)

/-- `JobTracker.handleDelete` (FileManager.tsx, JobTracker, lines
178-180): `onJobsChange(jobs.filter(j => j.id !== jobId))`. -/
def handleDelete (jobs : List ProcessingJob) (jobId : String) :
    List ProcessingJob :=
  jobs.filter (fun j => j.id ≠ jobId)

/-- The delete operation as JobTracker actually exposes it: the trash
button for a job is rendered only when `job.status !== 'processing'`
(FileManager.tsx, JobTracker, lines 317-326), so `handleDelete jobId` can
only ever be triggered when some listed job carries that id with a
non-`processing` status. -/
def trackerDelete (jobs : List ProcessingJob) (jobId : String) :
    List ProcessingJob :=
  if jobs.any (fun j => j.id = jobId ∧ j.status ≠ .processing) then
    handleDelete jobs jobId
  else jobs

/-- Number of listed jobs currently in status `processing`
(as counted by JobTracker's `processingJobs` filter). -/
def processingCount (jobs : List ProcessingJob) : Nat :=
  (jobs.filter (fun j => j.status = .processing)).length

/-- The job list observed `t` milliseconds after `n` jobs were submitted
at the same instant (`Date.now()` equal for all of them): each job evolves
independently along `jobAt`. -/
def simultaneousJobs (n : Nat) (t : Nat) : List ProcessingJob :=
  List.replicate n (jobAt 0 .resample ["ortho.tif"] t)

/-- File kind union `'raster' | 'vector'` used by the viewer components. -/
inductive FileKind where
  | raster
  | vector
deriving DecidableEq, Repr

/-- The metadata attached to a layer (fields of the metadata object that
MapViewer reads: the file kind and optional bounds `[minLng, minLat,
maxLng, maxLat]`, modelled with rationals). -/
structure FileMetadata where
  ftype : FileKind
  bounds : Option (ℚ × ℚ × ℚ × ℚ)
deriving DecidableEq, Repr

/-- A `LayerConfig` as constructed and consumed by MapViewer (part_002,
lines 78-87): its declaration lives in `@/types`, outside the captured
sources, so the fields are those the component populates.  The GeoJSON
payload `data` is opaque to every operation verified here and is modelled
as an uninterpreted string. -/
structure LayerConfig where
  id : String
  name : String
  ltype : FileKind
  visible : Bool
  opacity : ℚ
  filePath : String
  metadata : Option FileMetadata
  data : Option String
deriving DecidableEq, Repr

/-- `MapViewer.toggleLayerVisibility` (part_002, lines 117-123):
`setLayers(prev => prev.map(layer => layer.id === layerId ?
{...layer, visible: !layer.visible} : layer))`. -/
def toggleLayerVisibility (layerId : String) (layers : List LayerConfig) :
    List LayerConfig :=
  layers.map (fun layer =>
    if layer.id = layerId then { layer with visible := !layer.visible }
    else layer)

/-- The unit array of `FileManager.formatFileSize` (FileManager.tsx,
line 18): `['Bytes', 'KB', 'MB', 'GB']`. -/
def sizes : List String := ["Bytes", "KB", "MB", "GB"]

/-- The number rendered by `formatFileSize`:
`parseFloat((bytes / Math.pow(k, i)).toFixed(2))`, modelled exactly over
the rationals (divide by `1024 ^ i` and round to two decimal places). -/
def displayNumber (bytes : Nat) (i : Nat) : ℚ :=
  (round (((bytes : ℚ) / (1024 : ℚ) ^ i) * 100) : ℤ) / 100

/-- `FileManager.formatFileSize` (FileManager.tsx, lines 15-21).
For integer `bytes ≥ 1`, `Math.floor(Math.log(bytes) / Math.log(1024))`
is the integer `Nat.log 1024 bytes`.  An index beyond the unit array
would render JavaScript's `undefined`, which `List.getD` models with the
string "undefined". -/
def formatFileSize (bytes : Nat) : String :=
  if bytes = 0 then "0 Bytes"
  else
    let i := Nat.log 1024 bytes
    toString (displayNumber bytes i) ++ " " ++ sizes.getD i "undefined"

/-- The spec's ordering requirement on the presented job list, stated in
the spec's own words: the sequence is ordered by `created_at` descending
(each job's `created_at` is at least the next one's). -/
def orderedByCreatedAtDesc (jobs : List ProcessingJob) : Prop :=
  List.Chain' (fun a b => b.created_at ≤ a.created_at) jobs

/-! ## Theorems -/

/-- C1: Along the lifecycle the code gives a job — creation in `pending`,
the 1000 ms callback to `processing`, the 5000 ms callback to `completed`,
and nothing else — the status only moves forward, and once the job is in
a terminal status no later observation differs from it. -/
theorem status_only_moves_forward (now : Nat) (op : JobType)
    (files : List String) (t t' : Nat) (h : t ≤ t') :
    statusRank (jobAt now op files t).status ≤
      statusRank (jobAt now op files t').status ∧
    (isTerminal (jobAt now op files t).status = true →
      jobAt now op files t' = jobAt now op files t) := by
  unfold jobAt
  split_ifs with h1 h2 h3 h4 h3 h4 <;>
    simp [mkJob, tickProcessing, tickCompleted, statusRank, isTerminal] <;>
    omega

theorem status_only_moves_forward_witness :
    (0 : Nat) ≤ 6000 ∧
      statusRank (jobAt 7 .resample ["ortho.tif"] 0).status ≤
        statusRank (jobAt 7 .resample ["ortho.tif"] 6000).status :=
  ⟨by decide,
    (status_only_moves_forward 7 .resample ["ortho.tif"] 0 6000 (by decide)).1⟩

/-- C2 counterexample: the `status` union of `ProcessingJob` has exactly
four alternatives, and none of them is the literal `"cancelled"` — the
claimed five-valued status set (and with it the cancellation transition)
does not exist in the code. -/
theorem status_cancelled_absent :
    Fintype.card JobStatus = 4 ∧
      ∀ s : JobStatus, JobStatus.literal s ≠ "cancelled" := by
  decide

/-- C2 amended: the status of every job is one of exactly the FOUR values
pending, processing, completed, failed (there is no `cancelled` value and
no cancellation operation), and the jobs the code actually produces only
ever occupy pending, processing, or completed. -/
theorem status_is_one_of_four (now : Nat) (op : JobType)
    (files : List String) (t : Nat) :
    Fintype.card JobStatus = 4 ∧
    ((jobAt now op files t).status = .pending ∨
      (jobAt now op files t).status = .processing ∨
      (jobAt now op files t).status = .completed) := by
  refine ⟨by decide, ?_⟩
  unfold jobAt
  split_ifs <;> simp [mkJob, tickProcessing, tickCompleted]

/-- C3: in every state a job can reach, `output_file` and `error` are
never set together, both are unset while the status is non-terminal, and
`output_file` is set only in status `completed`. -/
theorem result_and_error_exclusive (now : Nat) (op : JobType)
    (files : List String) (t : Nat) :
    ((jobAt now op files t).output_file = none ∨
      (jobAt now op files t).error = none) ∧
    (isTerminal (jobAt now op files t).status = false →
      (jobAt now op files t).output_file = none ∧
      (jobAt now op files t).error = none) ∧
    ((jobAt now op files t).output_file ≠ none →
      (jobAt now op files t).status = .completed) := by
  unfold jobAt
  split_ifs <;> simp [mkJob, tickProcessing, tickCompleted, isTerminal]

theorem result_and_error_exclusive_witness :
    (jobAt 7 .resample ["ortho.tif"] 0).output_file = none ∧
      (jobAt 7 .resample ["ortho.tif"] 0).error = none :=
  (result_and_error_exclusive 7 .resample ["ortho.tif"] 0).2.1 (by decide)

/-- C4 counterexample: submit six jobs at the same instant; 2000 ms later
all six are simultaneously in `processing`, exceeding the claimed ceiling
of five — the code enforces no concurrency ceiling. -/
theorem processing_ceiling_violated :
    5 < processingCount (simultaneousJobs 6 2000) := by
  decide

/-- C4 amended: there is no admission ceiling: when `n` jobs are
submitted at the same instant, then at every time from 1000 ms up to
5000 ms after submission all `n` of them are in `processing` at once. -/
theorem all_submitted_jobs_process_at_once (n t : Nat)
    (h1 : 1000 ≤ t) (h2 : t < 5000) :
    processingCount (simultaneousJobs n t) = n := by
  have hj : (jobAt 0 .resample ["ortho.tif"] t).status = .processing := by
    unfold jobAt
    rw [if_neg (by omega), if_pos h2]
    rfl
  unfold processingCount simultaneousJobs
  induction n with
  | zero => simp
  | succ k ih =>
    rw [List.replicate_succ, List.filter_cons]
    simp [hj, ih]

theorem all_submitted_jobs_process_at_once_witness :
    processingCount (simultaneousJobs 6 2000) = 6 :=
  all_submitted_jobs_process_at_once 6 2000 (by decide) (by decide)

/-- C5 counterexample: with mosaic selectable (two rasters uploaded) and
a single input selected, `handleExecute` creates a job from the single
input — no `ValidationError`, and the job list is no longer empty. -/
theorem mosaic_single_input_creates_job :
    canExecuteOperation 2 0 .mosaic = true ∧
    handleExecute 42 ⟨some .mosaic, ["a.tif"]⟩ [] =
      [mkJob 42 .mosaic ["a.tif"]] ∧
    (handleExecute 42 ⟨some .mosaic, ["a.tif"]⟩ []).length = 1 := by
  refine ⟨by decide, rfl, rfl⟩

/-- C5 amended: submitting `mosaic` with a single selected input performs
no input-count validation and raises no error: `handleExecute` appends a
new pending job holding exactly that single input, even though the
operation's requirement table asks for two rasters (a requirement
`canExecuteOperation` checks only against the UPLOADED file counts, never
against the selection). -/
theorem mosaic_single_input_no_validation (now : Nat)
    (jobs : List ProcessingJob) (f : String) :
    (requirements .mosaic).1 = 2 ∧
    handleExecute now ⟨some .mosaic, [f]⟩ jobs =
      jobs ++ [mkJob now .mosaic [f]] ∧
    (mkJob now .mosaic [f]).status = .pending ∧
    (mkJob now .mosaic [f]).input_files = [f] :=
  ⟨rfl, rfl, rfl, rfl⟩

/-- C6: a `resample` job over one raster starts `pending` with progress
0, is `processing` from 1000 ms to 5000 ms with a progress strictly above
the initial one, and from 5000 ms on is `completed` with progress strictly
above the processing one and a non-empty `output_file`. -/
theorem resample_lifecycle (now : Nat) (f : String) (t1 t2 t3 : Nat)
    (h1 : t1 < 1000) (h2 : 1000 ≤ t2) (h2' : t2 < 5000) (h3 : 5000 ≤ t3) :
    (jobAt now .resample [f] t1).status = .pending ∧
    (jobAt now .resample [f] t1).progress = 0 ∧
    (jobAt now .resample [f] t2).status = .processing ∧
    (jobAt now .resample [f] t1).progress <
      (jobAt now .resample [f] t2).progress ∧
    (jobAt now .resample [f] t3).status = .completed ∧
    (jobAt now .resample [f] t2).progress <
      (jobAt now .resample [f] t3).progress ∧
    (jobAt now .resample [f] t3).output_file =
      some ("result_" ++ toString now ++ ".tif") ∧
    "result_" ++ toString now ++ ".tif" ≠ "" := by
  have e1 : jobAt now .resample [f] t1 = mkJob now .resample [f] := by
    unfold jobAt; rw [if_pos h1]
  have e2 : jobAt now .resample [f] t2 =
      tickProcessing (mkJob now .resample [f]) := by
    unfold jobAt; rw [if_neg (by omega), if_pos h2']
  have e3 : jobAt now .resample [f] t3 =
      tickCompleted (tickProcessing (mkJob now .resample [f])) := by
    unfold jobAt; rw [if_neg (by omega), if_neg (by omega)]
  have hne : "result_" ++ toString now ++ ".tif" ≠ "" := by
    intro hcontra
    have hlen := congrArg String.length hcontra
    simp [String.length_append] at hlen
    exact (by decide : (".tif").length ≠ 0) hlen.2
  rw [e1, e2, e3]
  exact ⟨rfl, rfl, rfl,
    by simp [mkJob, tickProcessing, tickCompleted], rfl,
    by simp [mkJob, tickProcessing, tickCompleted], rfl, hne⟩

theorem resample_lifecycle_witness :
    (jobAt 7 .resample ["ortho.tif"] 0).status = .pending ∧
      (jobAt 7 .resample ["ortho.tif"] 1000).status = .processing ∧
      (jobAt 7 .resample ["ortho.tif"] 5000).status = .completed ∧
      (jobAt 7 .resample ["ortho.tif"] 5000).output_file =
        some "result_7.tif" :=
  have h := resample_lifecycle 7 "ortho.tif" 0 1000 5000
    (by decide) (by decide) (by decide) (by decide)
  ⟨h.1, h.2.2.1, h.2.2.2.2.1, h.2.2.2.2.2.2.1⟩

/-- C7: when every job carrying the given id is in `processing`, the
delete operation JobTracker exposes leaves the job list unchanged — the
trash button is not rendered for a `processing` job, so the deletion
cannot be triggered. -/
theorem processing_job_cannot_be_deleted (jobs : List ProcessingJob)
    (jobId : String)
    (h : ∀ j ∈ jobs, j.id = jobId → j.status = .processing) :
    trackerDelete jobs jobId = jobs := by
  unfold trackerDelete
  rw [if_neg]
  intro hany
  rw [List.any_eq_true] at hany
  obtain ⟨j, hmem, hcond⟩ := hany
  simp only [decide_eq_true_eq] at hcond
  exact hcond.2 (h j hmem hcond.1)

theorem processing_job_cannot_be_deleted_witness :
    trackerDelete [tickProcessing (mkJob 7 .clip ["a.tif", "b.shp"])] "7" =
      [tickProcessing (mkJob 7 .clip ["a.tif", "b.shp"])] :=
  processing_job_cannot_be_deleted
    [tickProcessing (mkJob 7 .clip ["a.tif", "b.shp"])] "7" (by decide)

/-- C8 counterexample: submit a job at 1000 ms and another at 2000 ms;
the presented list has the OLDER job first, so it is not ordered by
`created_at` descending — the most recently created job comes last. -/
theorem jobs_listed_oldest_first :
    ¬ orderedByCreatedAtDesc
        (handleJobCreate
          (handleJobCreate [] (mkJob 1000 .resample ["a.tif"]))
          (mkJob 2000 .resample ["b.tif"])) := by
  intro hd
  simp [orderedByCreatedAtDesc, handleJobCreate, List.chain'_cons,
    mkJob] at hd

/-- Folding submissions into an initially empty list appends them in
order: the accumulated list is the submission sequence itself. -/
theorem foldl_handleJobCreate (acc js : List ProcessingJob) :
    List.foldl handleJobCreate acc js = acc ++ js := by
  induction js generalizing acc with
  | nil => simp
  | cons j rest ih => simp [List.foldl_cons, handleJobCreate, ih]

/-- C8 amended: the job list is presented in submission order — each new
job is appended at the END, so the most recently created job comes last,
and when creation times are non-decreasing across submissions the
presented sequence is ordered by `created_at` ASCENDING. -/
theorem jobs_listed_in_submission_order (js : List ProcessingJob)
    (h : List.Chain' (fun a b => a.created_at ≤ b.created_at) js) :
    List.foldl handleJobCreate [] js = js ∧
    List.Chain' (fun a b => a.created_at ≤ b.created_at)
      (List.foldl handleJobCreate [] js) := by
  have he : List.foldl handleJobCreate [] js = js := by
    simpa using foldl_handleJobCreate [] js
  exact ⟨he, by rw [he]; exact h⟩

theorem jobs_listed_in_submission_order_witness :
    List.foldl handleJobCreate []
        [mkJob 1000 .resample ["a.tif"], mkJob 2000 .resample ["b.tif"]] =
      [mkJob 1000 .resample ["a.tif"], mkJob 2000 .resample ["b.tif"]] :=
  (jobs_listed_in_submission_order
    [mkJob 1000 .resample ["a.tif"], mkJob 2000 .resample ["b.tif"]]
    (by simp [List.chain'_cons, mkJob])).1

/-- C9: toggling a layer's visibility is a frame-respecting involution:
the list keeps its length, every entry whose id differs from the target
is unchanged, an entry whose id matches changes only its `visible` field,
and toggling twice restores the original list. -/
theorem toggleLayerVisibility_frame (layerId : String)
    (layers : List LayerConfig) :
    toggleLayerVisibility layerId (toggleLayerVisibility layerId layers) =
      layers ∧
    (toggleLayerVisibility layerId layers).length = layers.length ∧
    ∀ i : Nat, (toggleLayerVisibility layerId layers)[i]? =
      (layers[i]?).map (fun l =>
        if l.id = layerId then { l with visible := !l.visible } else l) := by
  refine ⟨?_, by simp [toggleLayerVisibility], ?_⟩
  · induction layers with
    | nil => rfl
    | cons l rest ih =>
      unfold toggleLayerVisibility at ih ⊢
      simp only [List.map_cons, List.cons.injEq]
      refine ⟨?_, ih⟩
      by_cases hid : l.id = layerId
      · subst hid
        simp
      · simp [hid]
  · intro i
    simp [toggleLayerVisibility, List.getElem?_map]

/-- C10: `formatFileSize` is safe on its intended domain: 0 bytes renders
as "0 Bytes", and for every byte count up to (but excluding) 1024^4 the
computed unit index stays within the four-entry unit array, so the result
is the rendered number followed by one of the four units. -/
theorem formatFileSize_safe :
    formatFileSize 0 = "0 Bytes" ∧
    ∀ b : Nat, 1 ≤ b → b < 1024 ^ 4 →
      Nat.log 1024 b < sizes.length ∧
      sizes.getD (Nat.log 1024 b) "undefined" ∈ sizes ∧
      formatFileSize b =
        toString (displayNumber b (Nat.log 1024 b)) ++ " " ++
          sizes.getD (Nat.log 1024 b) "undefined" := by
  refine ⟨rfl, fun b hb hlt => ?_⟩
  have hb0 : b ≠ 0 := by omega
  have hlog : Nat.log 1024 b < 4 := Nat.log_lt_of_lt_pow hb0 hlt
  refine ⟨by simpa [sizes] using hlog, ?_, ?_⟩
  · have hmem : ∀ i, i < 4 → sizes.getD i "undefined" ∈ sizes := by decide
    exact hmem _ hlog
  · simp [formatFileSize, hb0]

theorem formatFileSize_safe_witness :
    (1 : Nat) ≤ 2048 ∧ 2048 < 1024 ^ 4 ∧
      Nat.log 1024 2048 < sizes.length ∧
      sizes.getD (Nat.log 1024 2048) "undefined" ∈ sizes :=
  ⟨by decide, by decide,
    (formatFileSize_safe.2 2048 (by decide) (by decide)).1,
    (formatFileSize_safe.2 2048 (by decide) (by decide)).2.1⟩

end Ortotool
